import Mathlib

/-!
# The remote signer client (privval/signer_client.go)

A shallow embedding of `SignerClient` and of the values it exchanges with its
`SignerListenerEndpoint`, followed by theorems about `Ping`, `GetPubKey`,
`SignVote`, `SignProposal` and `SetImmutableHeight`.

Conventions of the embedding.

* A Go pointer `*T` is an `Option T`: `none` is the nil pointer and `some v` is
  a pointer to a cell that currently holds `v`.  A method that writes through a
  pointer argument returns the content of that cell after the call.
* A Go interface value (`error`, `crypto.PubKey`, the response of
  `SendRequest`) is an `Option` of its dynamic value, `none` being nil.
* Dereferencing a nil pointer panics; a call that panics has the outcome
  `Outcome.panicked`.
* The endpoint is a state machine: `SendRequest` takes the endpoint state and a
  request and gives back the pair `(response, err)` together with the next
  state.  The endpoint only encodes the request it is handed; it does not write
  through the pointers the request carries.
* Calls to `sc.endpoint.Logger.Error` only write to the logger and do not
  influence any returned value; they are marked by comments in the bodies.
-/

namespace privval

/-! ## Domain values -/

/-- Modelled from the spec: the declaration of `types.Vote` is not among the
sources.  The spec describes it as opaque to the client apart from a signature
field, and sign requests are made for a height; `Rest` stands for the encoding
of all the remaining fields. -/
structure Vote where
  Height : Int
  Rest : List Nat
  Signature : List Nat
deriving DecidableEq

/-- Modelled from the spec: the declaration of `types.Proposal` is not among the
sources; same shape as `Vote`. -/
structure Proposal where
  Height : Int
  Rest : List Nat
  Signature : List Nat
deriving DecidableEq

/-- Modelled from the spec: the dynamic value of a non-nil `crypto.PubKey`
(declared outside the sources), as its bytes. -/
structure PubKey where
  Bytes : List Nat
deriving DecidableEq

/-- Modelled from the spec: the error a remote signer reports inside a response
(`RemoteSigningError` in the spec); its declaration is not among the sources. -/
structure RemoteSignerError where
  Code : Int
  Description : String
deriving DecidableEq

/-- The dynamic value of a non-nil Go `error` as far as the client can tell
them apart: the package variable `ErrUnexpectedResponse`, a remote signer error
taken from a response, or any other error value (transport failure, timeout,
decoding failure, ...) identified by its message. -/
inductive Error where
  | ErrUnexpectedResponse
  | remote (e : RemoteSignerError)
  | other (msg : String)
deriving DecidableEq

/-! ## Messages -/

/-- Modelled from the spec: the request messages built by the client.  The
struct declarations are not among the sources; the fields are those the client
sets (`SignVoteRequest{Vote: vote}`, `SignProposalRequest{Proposal: proposal}`,
`SetImmutableHeightRequest{height}`). -/
inductive Request where
  | PingRequest
  | PubKeyRequest
  | SignVoteRequest (Vote : Option Vote)
  | SignProposalRequest (Proposal : Option Proposal)
  | SetImmutableHeightRequest (Height : Int)
deriving DecidableEq

/-- Modelled from the spec: the dynamic value of a non-nil response.  The struct
declarations are not among the sources; the fields are those the client reads
(`PubKey`, `Vote`, `Proposal`, `Error`) and the spec's data model.  `Vote` and
`Proposal` are pointers and `Error` is a pointer to a remote signer error.  A
response is a non-nil pointer to one of these structs, as the decoder of the
endpoint produces them; a nil response is `none` in `SendResult`. -/
inductive Response where
  | PingResponse
  | PubKeyResponse (PubKey : Option PubKey) (Error : Option RemoteSignerError)
  | SignedVoteResponse (Vote : Option Vote) (Error : Option RemoteSignerError)
  | SignedProposalResponse (Proposal : Option Proposal) (Error : Option RemoteSignerError)
  | SetImmutableHeightResponse (Error : Option RemoteSignerError)
deriving DecidableEq

/-- What one call of `SendRequest` returns: the Go pair `(response, err)`. -/
abbrev SendResult := Option Response × Option Error

/-! ## Endpoint and client -/

/-- The part of `SignerListenerEndpoint` the client methods below use: the
method `SendRequest`, as a transition on the endpoint state `σ`.  The
implementation of the endpoint is not among the sources, so it is a parameter. -/
structure SignerListenerEndpoint (σ : Type) where
  SendRequest : σ → Request → SendResult × σ

/-- The Go struct `SignerClient`. -/
structure SignerClient (σ : Type) where
  endpoint : SignerListenerEndpoint σ

/-- How a call ends: it returns a value or it panics. -/
inductive Outcome (α : Type) where
  | returned (a : α)
  | panicked
deriving DecidableEq

/-- The observable result of `SignVote` / `SignProposal`: how the call ended,
the content of the cell behind the caller's pointer after the call, and the
endpoint state after the call. -/
structure SignResult (σ α : Type) where
  ret : Outcome (Option Error)
  arg : Option α
  ep : σ
deriving DecidableEq

variable {σ : Type}

/-- Go method `func (sc *SignerClient) SetImmutableHeight(height int64) error`. -/
def SignerClient.SetImmutableHeight (sc : SignerClient σ) (height : Int) (s : σ) :
    Option Error × σ :=
  match sc.endpoint.SendRequest s (Request.SetImmutableHeightRequest height) with
  | ((_, err), s1) =>
    -- if err != nil: Logger.Error("SignerClient::SetImmutableHeight", "err", err)
    (err, s1)

/-- Go method `func (sc *SignerClient) Ping() error`. -/
def SignerClient.Ping (sc : SignerClient σ) (s : σ) : Option Error × σ :=
  match sc.endpoint.SendRequest s Request.PingRequest with
  | ((response, err), s1) =>
    match err with
    | some _ =>
      -- Logger.Error("SignerClient::Ping", "err", err)
      (none, s1)
    | none =>
      match response with
      | some Response.PingResponse => (none, s1)
      | _ =>
        -- Logger.Error("SignerClient::Ping", "err", "response != PingResponse")
        (err, s1)

/-- Go method `func (sc *SignerClient) GetPubKey() crypto.PubKey`. -/
def SignerClient.GetPubKey (sc : SignerClient σ) (s : σ) : Option PubKey × σ :=
  match sc.endpoint.SendRequest s Request.PubKeyRequest with
  | ((response, err), s1) =>
    match err with
    | some _ =>
      -- Logger.Error("SignerClient::GetPubKey", "err", err)
      (none, s1)
    | none =>
      match response with
      | some (Response.PubKeyResponse pubKey respError) =>
        match respError with
        | some _ =>
          -- Logger.Error("failed to get private validator's public key", ...)
          (none, s1)
        | none => (pubKey, s1)
      | _ =>
        -- Logger.Error("SignerClient::GetPubKey", "err", "response != PubKeyResponse")
        (none, s1)

/-- Go method `func (sc *SignerClient) SignVote(chainID string, vote *types.Vote) error`.
The last step is `*vote = *resp.Vote`, which panics when either pointer is
nil. -/
def SignerClient.SignVote (sc : SignerClient σ) (_chainID : String) (vote : Option Vote)
    (s : σ) : SignResult σ Vote :=
  match sc.endpoint.SendRequest s (Request.SignVoteRequest vote) with
  | ((response, err), s1) =>
    match err with
    | some e =>
      -- Logger.Error("SignerClient::SignVote", "err", err)
      ⟨Outcome.returned (some e), vote, s1⟩
    | none =>
      match response with
      | some (Response.SignedVoteResponse respVote respError) =>
        match respError with
        | some r => ⟨Outcome.returned (some (Error.remote r)), vote, s1⟩
        | none =>
          match vote, respVote with
          | some _, some v => ⟨Outcome.returned none, some v, s1⟩
          | _, _ => ⟨Outcome.panicked, vote, s1⟩
      | _ =>
        -- Logger.Error("SignerClient::GetPubKey", "err", "response != SignedVoteResponse")
        ⟨Outcome.returned (some Error.ErrUnexpectedResponse), vote, s1⟩

/-- Go method `func (sc *SignerClient) SignProposal(chainID string, proposal *types.Proposal) error`.
The last step is `*proposal = *resp.Proposal`, which panics when either pointer
is nil. -/
def SignerClient.SignProposal (sc : SignerClient σ) (_chainID : String)
    (proposal : Option Proposal) (s : σ) : SignResult σ Proposal :=
  match sc.endpoint.SendRequest s (Request.SignProposalRequest proposal) with
  | ((response, err), s1) =>
    match err with
    | some e =>
      -- Logger.Error("SignerClient::SignProposal", "err", err)
      ⟨Outcome.returned (some e), proposal, s1⟩
    | none =>
      match response with
      | some (Response.SignedProposalResponse respProposal respError) =>
        match respError with
        | some r => ⟨Outcome.returned (some (Error.remote r)), proposal, s1⟩
        | none =>
          match proposal, respProposal with
          | some _, some p => ⟨Outcome.returned none, some p, s1⟩
          | _, _ => ⟨Outcome.panicked, proposal, s1⟩
      | _ =>
        -- Logger.Error("SignerClient::SignProposal", "err", "response != SignedProposalResponse")
        ⟨Outcome.returned (some Error.ErrUnexpectedResponse), proposal, s1⟩

/-! ## Test endpoints -/

/-- A mock endpoint that answers from a script: its state is the list of results
still to be handed out, one per `SendRequest`; with the script exhausted it
reports a transport error. -/
def mockEndpoint : SignerListenerEndpoint (List SendResult) where
  SendRequest := fun s _ =>
    match s with
    | [] => ((none, some (Error.other "endpoint is not connected")), [])
    | r :: rest => (r, rest)

/-- A client of the scripted mock endpoint. -/
def mockClient : SignerClient (List SendResult) := ⟨mockEndpoint⟩

/-- An endpoint that behaves as `ep` and records, in order, every request it is
sent. -/
def recording (ep : SignerListenerEndpoint σ) : SignerListenerEndpoint (σ × List Request) where
  SendRequest := fun s req => ((ep.SendRequest s.1 req).1, ((ep.SendRequest s.1 req).2, s.2 ++ [req]))

/-- Sample values used at concrete inputs. -/
def unsignedVote : Vote := ⟨5, [1, 2], []⟩

/-- A signed vote for another height than `unsignedVote`. -/
def otherSignedVote : Vote := ⟨7, [3], [9, 9]⟩

/-- The vote `unsignedVote` with a signature. -/
def signedVote : Vote := ⟨5, [1, 2], [4, 2]⟩

/-- An unsigned proposal. -/
def unsignedProposal : Proposal := ⟨5, [1], []⟩

/-- A remote signer error, such as the rejection of a height at or below the
immutable height. -/
def heightRejected : RemoteSignerError := ⟨3, "height is not above the immutable height"⟩

/-! ## SignVote -/

/-- C1: whenever `SignVote` returns a non-nil error, the caller's vote is what
it was before the call; and the vote differs from its value before the call
only when `SendRequest` returned no error and a `SignedVoteResponse` whose
`Error` is nil. -/
theorem SignVote_failure_keeps_vote (sc : SignerClient σ) (s : σ) (chainID : String)
    (vote : Option Vote) :
    (∀ e, (sc.SignVote chainID vote s).ret = Outcome.returned (some e) →
        (sc.SignVote chainID vote s).arg = vote) ∧
    ((sc.SignVote chainID vote s).arg ≠ vote →
        ∃ v, (sc.endpoint.SendRequest s (Request.SignVoteRequest vote)).1 =
          (some (Response.SignedVoteResponse (some v) none), none)) := by
  unfold SignerClient.SignVote
  generalize sc.endpoint.SendRequest s (Request.SignVoteRequest vote) = r
  rcases r with ⟨⟨response, err⟩, s1⟩
  cases err with
  | some e => simp
  | none =>
    cases response with
    | none => simp
    | some resp =>
      cases resp with
      | SignedVoteResponse respVote respError =>
        cases respError with
        | some r => simp
        | none =>
          cases vote <;> cases respVote <;> simp
      | _ => simp

/-- Witness for C1: the remote signer rejects the vote; `SignVote` returns the
remote error and the caller's vote is untouched. -/
theorem SignVote_failure_keeps_vote_witness :
    (mockClient.SignVote "chain" (some unsignedVote)
        [(some (Response.SignedVoteResponse (some otherSignedVote) (some heightRejected)), none)]).ret
      = Outcome.returned (some (Error.remote heightRejected)) ∧
    (mockClient.SignVote "chain" (some unsignedVote)
        [(some (Response.SignedVoteResponse (some otherSignedVote) (some heightRejected)), none)]).arg
      = some unsignedVote :=
  ⟨rfl, (SignVote_failure_keeps_vote mockClient _ "chain" (some unsignedVote)).1 _ rfl⟩

/-- C2, counterexample: `SendRequest` returns no error and a `SignedVoteResponse`
whose `Error` is nil, and `SignVote` does not return nil: the response carries
no vote (its `Vote` is nil), so `*vote = *resp.Vote` panics. -/
theorem SignVote_nil_error_not_returned :
    (mockEndpoint.SendRequest [(some (Response.SignedVoteResponse none none), none)]
        (Request.SignVoteRequest (some unsignedVote))).1
      = (some (Response.SignedVoteResponse none none), none) ∧
    (mockClient.SignVote "chain" (some unsignedVote)
        [(some (Response.SignedVoteResponse none none), none)]).ret
      ≠ Outcome.returned none := by
  constructor
  · rfl
  · intro h
    cases h

/-- C2, amended: the error `SignVote` returns is determined by the pair
`(response, err)` of `SendRequest`.  With `err` non-nil it returns `err`; with
`err` nil and a response that is not a `SignedVoteResponse` it returns
`ErrUnexpectedResponse`; with a `SignedVoteResponse` whose `Error` is a remote
error it returns that remote error; with a `SignedVoteResponse` whose `Error`
is nil and whose `Vote` is non-nil (the caller's pointer being non-nil) it
returns nil.  It returns nil exactly in that last case. -/
theorem SignVote_error_determined (sc : SignerClient σ) (s : σ) (chainID : String)
    (vote : Option Vote) (response : Option Response) (err : Option Error)
    (h : (sc.endpoint.SendRequest s (Request.SignVoteRequest vote)).1 = (response, err)) :
    (∀ e, err = some e → (sc.SignVote chainID vote s).ret = Outcome.returned (some e)) ∧
    (err = none → (∀ rv re, response ≠ some (Response.SignedVoteResponse rv re)) →
      (sc.SignVote chainID vote s).ret = Outcome.returned (some Error.ErrUnexpectedResponse)) ∧
    (∀ rv r, err = none → response = some (Response.SignedVoteResponse rv (some r)) →
      (sc.SignVote chainID vote s).ret = Outcome.returned (some (Error.remote r))) ∧
    (∀ v rv, err = none → response = some (Response.SignedVoteResponse (some rv) none) →
      vote = some v → (sc.SignVote chainID vote s).ret = Outcome.returned none) ∧
    ((sc.SignVote chainID vote s).ret = Outcome.returned none ↔
      ∃ v rv, err = none ∧ response = some (Response.SignedVoteResponse (some rv) none) ∧
        vote = some v) := by
  unfold SignerClient.SignVote
  revert h
  generalize sc.endpoint.SendRequest s (Request.SignVoteRequest vote) = r
  rcases r with ⟨⟨response1, err1⟩, s1⟩
  intro h
  simp only [Prod.mk.injEq] at h
  obtain ⟨h1, h2⟩ := h
  subst h1 h2
  cases err1 with
  | some e => simp
  | none =>
    cases response1 with
    | none => simp
    | some resp =>
      cases resp with
      | SignedVoteResponse respVote respError =>
        cases respError with
        | some r => simp
        | none =>
          cases vote <;> cases respVote <;> simp
      | _ => simp

/-- Witness for C2: a remote rejection is returned unchanged. -/
theorem SignVote_error_determined_witness :
    (mockClient.SignVote "chain" (some unsignedVote)
        [(some (Response.SignedVoteResponse none (some heightRejected)), none)]).ret
      = Outcome.returned (some (Error.remote heightRejected)) :=
  (SignVote_error_determined mockClient
      [(some (Response.SignedVoteResponse none (some heightRejected)), none)] "chain"
      (some unsignedVote) (some (Response.SignedVoteResponse none (some heightRejected))) none
      rfl).2.2.1 none heightRejected rfl rfl

/-- C3, counterexample: on the success path the caller's vote takes the height
of the response's vote, so a field other than the signature changes. -/
theorem SignVote_success_changes_height :
    (mockClient.SignVote "chain" (some unsignedVote)
        [(some (Response.SignedVoteResponse (some otherSignedVote) none), none)]).ret
      = Outcome.returned none ∧
    ((mockClient.SignVote "chain" (some unsignedVote)
        [(some (Response.SignedVoteResponse (some otherSignedVote) none), none)]).arg.map
          Vote.Height) = some 7 ∧
    unsignedVote.Height = 5 := by
  refine ⟨rfl, rfl, rfl⟩

/-- C3, amended: on the success path of `SignVote` the caller's vote after the
call is the response's vote, every field included: it has the signature of the
response's vote, and each other field has the value the response's vote gives
it.  When the response's vote agrees with the caller's vote on the fields other
than the signature, those fields are unchanged. -/
theorem SignVote_success_copies_response (sc : SignerClient σ) (s : σ) (chainID : String)
    (v rv : Vote)
    (h : (sc.endpoint.SendRequest s (Request.SignVoteRequest (some v))).1 =
      (some (Response.SignedVoteResponse (some rv) none), none)) :
    (sc.SignVote chainID (some v) s).ret = Outcome.returned none ∧
    (sc.SignVote chainID (some v) s).arg = some rv ∧
    (rv.Height = v.Height → rv.Rest = v.Rest →
      (sc.SignVote chainID (some v) s).arg = some { v with Signature := rv.Signature }) := by
  unfold SignerClient.SignVote
  revert h
  generalize sc.endpoint.SendRequest s (Request.SignVoteRequest (some v)) = r
  rcases r with ⟨⟨response1, err1⟩, s1⟩
  intro h
  simp only [Prod.mk.injEq] at h
  obtain ⟨h1, h2⟩ := h
  subst h1 h2
  refine ⟨rfl, rfl, ?_⟩
  intro hh hr
  cases v
  cases rv
  simp_all

/-- Witness for C3: the remote signer returns the caller's vote with a
signature; the caller's vote becomes that signed vote. -/
theorem SignVote_success_copies_response_witness :
    (mockClient.SignVote "chain" (some unsignedVote)
        [(some (Response.SignedVoteResponse (some signedVote) none), none)]).arg
      = some signedVote :=
  (SignVote_success_copies_response mockClient
      [(some (Response.SignedVoteResponse (some signedVote) none), none)] "chain"
      unsignedVote signedVote rfl).2.1

/-! ## SignProposal -/

/-- C4: `SignProposal` handles failures as `SignVote` does.  With `err` non-nil
it returns `err`; with `err` nil and a response that is not a
`SignedProposalResponse` it returns `ErrUnexpectedResponse`; with a
`SignedProposalResponse` whose `Error` is a remote error it returns that remote
error; in these three cases the caller's proposal is unmodified.  It returns nil
only when `err` is nil and the response is a `SignedProposalResponse` with nil
`Error`, and then the caller's proposal is the response's proposal; the
proposal is modified in no other case. -/
theorem SignProposal_failure_handling (sc : SignerClient σ) (s : σ) (chainID : String)
    (proposal : Option Proposal) (response : Option Response) (err : Option Error)
    (h : (sc.endpoint.SendRequest s (Request.SignProposalRequest proposal)).1 = (response, err)) :
    (∀ e, err = some e →
      (sc.SignProposal chainID proposal s).ret = Outcome.returned (some e) ∧
      (sc.SignProposal chainID proposal s).arg = proposal) ∧
    (err = none → (∀ rp re, response ≠ some (Response.SignedProposalResponse rp re)) →
      (sc.SignProposal chainID proposal s).ret
        = Outcome.returned (some Error.ErrUnexpectedResponse) ∧
      (sc.SignProposal chainID proposal s).arg = proposal) ∧
    (∀ rp r, err = none → response = some (Response.SignedProposalResponse rp (some r)) →
      (sc.SignProposal chainID proposal s).ret = Outcome.returned (some (Error.remote r)) ∧
      (sc.SignProposal chainID proposal s).arg = proposal) ∧
    ((sc.SignProposal chainID proposal s).ret = Outcome.returned none →
      ∃ rp, err = none ∧ response = some (Response.SignedProposalResponse (some rp) none) ∧
        (sc.SignProposal chainID proposal s).arg = some rp) ∧
    ((sc.SignProposal chainID proposal s).arg ≠ proposal →
      ∃ rp, err = none ∧ response = some (Response.SignedProposalResponse (some rp) none) ∧
        (sc.SignProposal chainID proposal s).ret = Outcome.returned none) ∧
    (∀ p rp, err = none → response = some (Response.SignedProposalResponse (some rp) none) →
      proposal = some p →
      (sc.SignProposal chainID proposal s).ret = Outcome.returned none ∧
      (sc.SignProposal chainID proposal s).arg = some rp) := by
  unfold SignerClient.SignProposal
  revert h
  generalize sc.endpoint.SendRequest s (Request.SignProposalRequest proposal) = r
  rcases r with ⟨⟨response1, err1⟩, s1⟩
  intro h
  simp only [Prod.mk.injEq] at h
  obtain ⟨h1, h2⟩ := h
  subst h1 h2
  cases err1 with
  | some e => simp
  | none =>
    cases response1 with
    | none => simp
    | some resp =>
      cases resp with
      | SignedProposalResponse respProposal respError =>
        cases respError with
        | some r => simp
        | none =>
          cases proposal <;> cases respProposal <;> simp
      | _ => simp

/-- Witness for C4: a response of the wrong variant gives
`ErrUnexpectedResponse` and leaves the proposal alone. -/
theorem SignProposal_failure_handling_witness :
    (mockClient.SignProposal "chain" (some unsignedProposal)
        [(some (Response.SignedVoteResponse (some signedVote) none), none)]).ret
      = Outcome.returned (some Error.ErrUnexpectedResponse) ∧
    (mockClient.SignProposal "chain" (some unsignedProposal)
        [(some (Response.SignedVoteResponse (some signedVote) none), none)]).arg
      = some unsignedProposal :=
  (SignProposal_failure_handling mockClient
      [(some (Response.SignedVoteResponse (some signedVote) none), none)] "chain"
      (some unsignedProposal) (some (Response.SignedVoteResponse (some signedVote) none)) none
      rfl).2.1 rfl (by simp)

/-! ## GetPubKey -/

/-- C5: `GetPubKey` returns a nil key when `SendRequest` returned an error,
when the response is not a `PubKeyResponse`, and when the `PubKeyResponse` has a
non-nil `Error` (whatever `PubKey` it carries); for a `PubKeyResponse` with nil
`Error` it returns the response's `PubKey`. -/
theorem GetPubKey_result (sc : SignerClient σ) (s : σ)
    (response : Option Response) (err : Option Error)
    (h : (sc.endpoint.SendRequest s Request.PubKeyRequest).1 = (response, err)) :
    (∀ e, err = some e → (sc.GetPubKey s).1 = none) ∧
    (err = none → (∀ k re, response ≠ some (Response.PubKeyResponse k re)) →
      (sc.GetPubKey s).1 = none) ∧
    (∀ k r, err = none → response = some (Response.PubKeyResponse k (some r)) →
      (sc.GetPubKey s).1 = none) ∧
    (∀ k, err = none → response = some (Response.PubKeyResponse k none) →
      (sc.GetPubKey s).1 = k) := by
  unfold SignerClient.GetPubKey
  revert h
  generalize sc.endpoint.SendRequest s Request.PubKeyRequest = r
  rcases r with ⟨⟨response1, err1⟩, s1⟩
  intro h
  simp only [Prod.mk.injEq] at h
  obtain ⟨h1, h2⟩ := h
  subst h1 h2
  cases err1 with
  | some e => simp
  | none =>
    cases response1 with
    | none => simp
    | some resp =>
      cases resp with
      | PubKeyResponse pubKey respError =>
        cases respError with
        | some r => simp
        | none => simp
      | _ => simp

/-- Witness for C5: a `PubKeyResponse` that carries both a key and a remote
error yields the nil key. -/
theorem GetPubKey_result_witness :
    (mockClient.GetPubKey
        [(some (Response.PubKeyResponse (some ⟨[1, 2, 3]⟩) (some heightRejected)), none)]).1
      = none :=
  (GetPubKey_result mockClient
      [(some (Response.PubKeyResponse (some ⟨[1, 2, 3]⟩) (some heightRejected)), none)]
      (some (Response.PubKeyResponse (some ⟨[1, 2, 3]⟩) (some heightRejected))) none
      rfl).2.2.1 (some ⟨[1, 2, 3]⟩) heightRejected rfl rfl

/-! ## Ping -/

/-- C6: whenever `SendRequest` returns an error for the `PingRequest`, `Ping`
returns nil. -/
theorem Ping_swallows_transport_error (sc : SignerClient σ) (s : σ) (e : Error)
    (h : (sc.endpoint.SendRequest s Request.PingRequest).1.2 = some e) :
    (sc.Ping s).1 = none := by
  unfold SignerClient.Ping
  revert h
  generalize sc.endpoint.SendRequest s Request.PingRequest = r
  rcases r with ⟨⟨response1, err1⟩, s1⟩
  intro h
  simp only at h
  subst h
  rfl

/-- Witness for C6: the mock endpoint with nothing to answer is disconnected and
`Ping` still returns nil. -/
theorem Ping_swallows_transport_error_witness :
    (mockEndpoint.SendRequest [] Request.PingRequest).1.2
      = some (Error.other "endpoint is not connected") ∧
    (mockClient.Ping []).1 = none :=
  ⟨rfl, Ping_swallows_transport_error mockClient [] (Error.other "endpoint is not connected") rfl⟩

/-- C7, the code at the failing inputs: when `SendRequest` returns no error and
a response that is not a `PingResponse`, `Ping` returns nil (the `err` it
returns on that branch is the nil `err` of `SendRequest`). -/
theorem Ping_wrong_variant_returns_nil (sc : SignerClient σ) (s : σ)
    (herr : (sc.endpoint.SendRequest s Request.PingRequest).1.2 = none)
    (hresp : (sc.endpoint.SendRequest s Request.PingRequest).1.1 ≠ some Response.PingResponse) :
    (sc.Ping s).1 = none := by
  unfold SignerClient.Ping
  revert herr hresp
  generalize sc.endpoint.SendRequest s Request.PingRequest = r
  rcases r with ⟨⟨response1, err1⟩, s1⟩
  intro herr hresp
  simp only at herr
  subst herr
  cases response1 with
  | none => rfl
  | some resp => cases resp <;> rfl

/-- Witness for C7: the remote end answers a ping with a `PubKeyResponse`; `Ping`
returns nil. -/
theorem Ping_wrong_variant_returns_nil_witness :
    (mockClient.Ping [(some (Response.PubKeyResponse none none), none)]).1 = none :=
  Ping_wrong_variant_returns_nil mockClient [(some (Response.PubKeyResponse none none), none)]
    rfl (by simp [mockClient, mockEndpoint])

/-! ## SetImmutableHeight -/

/-- C8, counterexample: `SendRequest` returns no transport error and a
`SetImmutableHeightResponse` whose `Error` is a remote error, and
`SetImmutableHeight` returns nil. -/
theorem SetImmutableHeight_drops_remote_error :
    (mockEndpoint.SendRequest
        [(some (Response.SetImmutableHeightResponse (some heightRejected)), none)]
        (Request.SetImmutableHeightRequest 10)).1
      = (some (Response.SetImmutableHeightResponse (some heightRejected)), none) ∧
    (mockClient.SetImmutableHeight 10
        [(some (Response.SetImmutableHeightResponse (some heightRejected)), none)]).1 = none :=
  ⟨rfl, rfl⟩

/-- C8, amended: for every height, `SetImmutableHeight` returns exactly the
`err` of its `SendRequest` call, whatever the response is: a transport error is
returned unchanged, and with no transport error it returns nil. -/
theorem SetImmutableHeight_returns_send_error (sc : SignerClient σ) (height : Int) (s : σ) :
    (sc.SetImmutableHeight height s).1 =
      (sc.endpoint.SendRequest s (Request.SetImmutableHeightRequest height)).1.2 := by
  unfold SignerClient.SetImmutableHeight
  generalize sc.endpoint.SendRequest s (Request.SetImmutableHeightRequest height) = r
  rcases r with ⟨⟨response1, err1⟩, s1⟩
  rfl

/-! ## Panics -/

/-- C9, the code at the failing inputs: when `SendRequest` returns no error and
a `SignedVoteResponse` (resp. `SignedProposalResponse`) whose `Error` and `Vote`
(resp. `Proposal`) are both nil, `SignVote` (resp. `SignProposal`) panics and
leaves the caller's vote (resp. proposal) as it was. -/
theorem Sign_panics_on_nil_artifact (sc : SignerClient σ) (s : σ) (chainID : String)
    (vote : Option Vote) (proposal : Option Proposal) :
    ((sc.endpoint.SendRequest s (Request.SignVoteRequest vote)).1 =
        (some (Response.SignedVoteResponse none none), none) →
      (sc.SignVote chainID vote s).ret = Outcome.panicked ∧
      (sc.SignVote chainID vote s).arg = vote) ∧
    ((sc.endpoint.SendRequest s (Request.SignProposalRequest proposal)).1 =
        (some (Response.SignedProposalResponse none none), none) →
      (sc.SignProposal chainID proposal s).ret = Outcome.panicked ∧
      (sc.SignProposal chainID proposal s).arg = proposal) := by
  constructor
  · unfold SignerClient.SignVote
    generalize sc.endpoint.SendRequest s (Request.SignVoteRequest vote) = r
    rcases r with ⟨⟨response1, err1⟩, s1⟩
    intro h
    simp only [Prod.mk.injEq] at h
    obtain ⟨h1, h2⟩ := h
    subst h1 h2
    cases vote <;> exact ⟨rfl, rfl⟩
  · unfold SignerClient.SignProposal
    generalize sc.endpoint.SendRequest s (Request.SignProposalRequest proposal) = r
    rcases r with ⟨⟨response1, err1⟩, s1⟩
    intro h
    simp only [Prod.mk.injEq] at h
    obtain ⟨h1, h2⟩ := h
    subst h1 h2
    cases proposal <;> exact ⟨rfl, rfl⟩

/-- Witness for C9: both calls panic at the mock endpoint. -/
theorem Sign_panics_on_nil_artifact_witness :
    (mockClient.SignVote "chain" (some unsignedVote)
        [(some (Response.SignedVoteResponse none none), none)]).ret = Outcome.panicked ∧
    (mockClient.SignProposal "chain" (some unsignedProposal)
        [(some (Response.SignedProposalResponse none none), none)]).ret = Outcome.panicked :=
  ⟨((Sign_panics_on_nil_artifact mockClient
        [(some (Response.SignedVoteResponse none none), none)] "chain"
        (some unsignedVote) none).1 rfl).1,
   ((Sign_panics_on_nil_artifact mockClient
        [(some (Response.SignedProposalResponse none none), none)] "chain"
        none (some unsignedProposal)).2 rfl).1⟩

/-! ## One round trip per operation -/

/-- C10: over an endpoint that records the requests it is sent, each of `Ping`,
`GetPubKey`, `SignVote`, `SignProposal` and `SetImmutableHeight` leaves the
endpoint in the state reached by one `SendRequest` and extends the record by
exactly one request, on every path: `PingRequest`, `PubKeyRequest`, the
`SignVoteRequest` with the caller's vote, the `SignProposalRequest` with the
caller's proposal, the `SetImmutableHeightRequest` with the given height.  The
`chainID` of `SignVote` and `SignProposal` changes nothing: two calls that
differ only in `chainID` have the same result, requests recorded included. -/
theorem one_SendRequest_per_operation (ep : SignerListenerEndpoint σ) (s : σ)
    (log : List Request) (chainID chainID2 : String) (vote : Option Vote)
    (proposal : Option Proposal) (height : Int) :
    ((SignerClient.mk (recording ep)).Ping (s, log)).2 =
      ((ep.SendRequest s Request.PingRequest).2, log ++ [Request.PingRequest]) ∧
    ((SignerClient.mk (recording ep)).GetPubKey (s, log)).2 =
      ((ep.SendRequest s Request.PubKeyRequest).2, log ++ [Request.PubKeyRequest]) ∧
    ((SignerClient.mk (recording ep)).SignVote chainID vote (s, log)).ep =
      ((ep.SendRequest s (Request.SignVoteRequest vote)).2,
        log ++ [Request.SignVoteRequest vote]) ∧
    ((SignerClient.mk (recording ep)).SignProposal chainID proposal (s, log)).ep =
      ((ep.SendRequest s (Request.SignProposalRequest proposal)).2,
        log ++ [Request.SignProposalRequest proposal]) ∧
    ((SignerClient.mk (recording ep)).SetImmutableHeight height (s, log)).2 =
      ((ep.SendRequest s (Request.SetImmutableHeightRequest height)).2,
        log ++ [Request.SetImmutableHeightRequest height]) ∧
    (SignerClient.mk (recording ep)).SignVote chainID vote (s, log) =
      (SignerClient.mk (recording ep)).SignVote chainID2 vote (s, log) ∧
    (SignerClient.mk (recording ep)).SignProposal chainID proposal (s, log) =
      (SignerClient.mk (recording ep)).SignProposal chainID2 proposal (s, log) := by
  refine ⟨?_, ?_, ?_, ?_, ?_, rfl, rfl⟩
  · unfold SignerClient.Ping recording
    simp only
    generalize ep.SendRequest s Request.PingRequest = r
    rcases r with ⟨⟨response1, err1⟩, s1⟩
    cases err1 with
    | some e => rfl
    | none =>
      cases response1 with
      | none => rfl
      | some resp => cases resp <;> rfl
  · unfold SignerClient.GetPubKey recording
    simp only
    generalize ep.SendRequest s Request.PubKeyRequest = r
    rcases r with ⟨⟨response1, err1⟩, s1⟩
    cases err1 with
    | some e => rfl
    | none =>
      cases response1 with
      | none => rfl
      | some resp =>
        cases resp with
        | PubKeyResponse k re => cases re <;> rfl
        | _ => rfl
  · unfold SignerClient.SignVote recording
    simp only
    generalize ep.SendRequest s (Request.SignVoteRequest vote) = r
    rcases r with ⟨⟨response1, err1⟩, s1⟩
    cases err1 with
    | some e => rfl
    | none =>
      cases response1 with
      | none => rfl
      | some resp =>
        cases resp with
        | SignedVoteResponse rv re =>
          cases re with
          | some r => rfl
          | none => cases vote <;> cases rv <;> rfl
        | _ => rfl
  · unfold SignerClient.SignProposal recording
    simp only
    generalize ep.SendRequest s (Request.SignProposalRequest proposal) = r
    rcases r with ⟨⟨response1, err1⟩, s1⟩
    cases err1 with
    | some e => rfl
    | none =>
      cases response1 with
      | none => rfl
      | some resp =>
        cases resp with
        | SignedProposalResponse rp re =>
          cases re with
          | some r => rfl
          | none => cases proposal <;> cases rp <;> rfl
        | _ => rfl
  · rfl

end privval
